import Mathlib

/-!
Verification development for the C++ Aeron Archive client library.

The definitions below are shallow embeddings of the client sources:
`ArchiveProxy.cpp/.h`, `AeronArchive.h/.cpp`, `ControlResponsePoller.cpp/.h`,
`RecordingDescriptorPoller.cpp`, `RecordingSubscriptionDescriptorPoller.cpp`,
`ReplayMerge.cpp`, `RecordingPos.h` and `ArchiveConfiguration.h`.
Machine integers are modelled as `Int` (the code uses 64-bit arithmetic with no
overflow on the paths modelled here; the single narrowing cast in
`AeronArchive::replay` is modelled explicitly), strings as `String` or byte
lists, and the external transport (publications, subscriptions, counters
registry, clocks) as explicit oracle inputs.
-/

namespace Aeron

/-- The `aeron::NULL_VALUE` sentinel used throughout the archive client. -/
def NULL_VALUE : Int := -1

/-- Transport offer signal `NOT_CONNECTED` (external transport contract). -/
def NOT_CONNECTED : Int := -1

/-- Transport offer signal `BACK_PRESSURED` (external transport contract). -/
def BACK_PRESSURED : Int := -2

/-- Transport offer signal `ADMIN_ACTION` (external transport contract). -/
def ADMIN_ACTION : Int := -3

/-- Transport offer signal `PUBLICATION_CLOSED` (external transport contract). -/
def PUBLICATION_CLOSED : Int := -4

/-- Transport offer signal `MAX_POSITION_EXCEEDED` (external transport contract). -/
def MAX_POSITION_EXCEEDED : Int := -5

/-- The `AeronArchive::NULL_POSITION` sentinel (`AeronArchive.h`). -/
def NULL_POSITION : Int := NULL_VALUE

/-- Embeds the file-local helper `addSessionId` of `AeronArchive.cpp`
(lines 214-223): appends a `session-id=<sessionId>` parameter to a channel
URI, separated by a question mark when the URI has no query part yet and by a
pipe otherwise. -/
def addSessionId (channelUri : String) (sessionId : Int) : String :=
  channelUri ++ (if channelUri.data.contains '?' then "|" else "?")
    ++ "session-id" ++ "=" ++ toString sessionId

/-- The field content of an encoded `StopRecordingRequest`
(`ArchiveProxy::stopRecording(channel, streamId, correlationId,
controlSessionId)`, ArchiveProxy.cpp lines 157-170). -/
structure StopRecordingRequest where
  controlSessionId : Int
  correlationId : Int
  streamId : Int
  channel : String
deriving DecidableEq

/-- Embeds `ArchiveProxy::stopRecording(channel, streamId, correlationId,
controlSessionId)`: the request body that is encoded and offered. -/
def ArchiveProxy.stopRecordingRequest (channel : String) (streamId : Int)
    (correlationId : Int) (controlSessionId : Int) : StopRecordingRequest :=
  { controlSessionId := controlSessionId
    correlationId := correlationId
    streamId := streamId
    channel := channel }

/-- The observable identity of an `aeron::Publication` as used by
`AeronArchive::stopRecording(const Publication&)`: its channel, session id and
stream id. -/
structure Publication where
  channel : String
  sessionId : Int
  streamId : Int

/-- Embeds `AeronArchive::stopRecording(const std::string&, std::int32_t)`
(AeronArchive.cpp lines 293-302): it allocates a correlation id and offers a
stop-recording request with the given channel and stream id on the control
session. The allocated correlation id is passed in as `correlationId`. -/
def AeronArchive.stopRecordingByChannel (controlSessionId correlationId : Int)
    (channel : String) (streamId : Int) : StopRecordingRequest :=
  ArchiveProxy.stopRecordingRequest channel streamId correlationId controlSessionId

/-- Embeds `AeronArchive::stopRecording(const Publication&)` (AeronArchive.cpp
lines 304-308): it builds `addSessionId(publication.channel(),
publication.sessionId())` and delegates to the channel/stream overload. -/
def AeronArchive.stopRecordingByPublication (controlSessionId correlationId : Int)
    (pub : Publication) : StopRecordingRequest :=
  AeronArchive.stopRecordingByChannel controlSessionId correlationId
    (addSessionId pub.channel pub.sessionId) pub.streamId

/-- Two's-complement reinterpretation of the low 32 bits of a 64-bit value, as
performed by `static_cast<uint32_t>(...)` on the `startReplay` reply followed
by the conversion to the `std::int32_t` parameter of `addSessionId`
(AeronArchive.cpp lines 397-430). -/
def low32AsInt32 (x : Int) : Int :=
  if x % 4294967296 < 2147483648 then x % 4294967296
  else x % 4294967296 - 4294967296

/-- The subscription added by `AeronArchive::replay`: channel, stream id, and
whether image availability handlers were passed through. -/
structure SubscriptionAdd where
  channel : String
  streamId : Int
  handlers : Option (Int × Int)
deriving DecidableEq

/-- Oracle inputs for one `AeronArchive::replay` call: the 64-bit value the
archive returned for the `startReplay` request, and the registration id the
transport allocates for the added subscription. -/
structure ReplayEnv where
  startReplayReply : Int
  registrationId : Int

/-- Embeds `AeronArchive::replay(recordingId, position, length, replayChannel,
replayStreamId)` (AeronArchive.cpp lines 397-411) from the point where
`startReplay` has returned: the replay session id is
`static_cast<uint32_t>` of the reply, and a subscription is added on
`addSessionId(replayChannel, replaySessionId)` with the caller's replay
stream id. Returns the registration id together with the added
subscription. -/
def AeronArchive.replayOp (env : ReplayEnv) (replayChannel : String)
    (replayStreamId : Int) : Int × SubscriptionAdd :=
  let replaySessionId := low32AsInt32 env.startReplayReply
  (env.registrationId,
   { channel := addSessionId replayChannel replaySessionId
     streamId := replayStreamId
     handlers := none })

/-- Embeds the `AeronArchive::replay` overload with image handlers
(AeronArchive.cpp lines 413-430); the handlers are opaque callables, modelled
as a pair of tokens passed through to `addSubscription`. -/
def AeronArchive.replayOpWithHandlers (env : ReplayEnv) (replayChannel : String)
    (replayStreamId : Int) (availableImageHandler unavailableImageHandler : Int) :
    Int × SubscriptionAdd :=
  let replaySessionId := low32AsInt32 env.startReplayReply
  (env.registrationId,
   { channel := addSessionId replayChannel replaySessionId
     streamId := replayStreamId
     handlers := some (availableImageHandler, unavailableImageHandler) })

/-- The `ArchiveProxy::DEFAULT_RETRY_ATTEMPTS` constant (ArchiveProxy.h line 400). -/
def DEFAULT_RETRY_ATTEMPTS : Nat := 3

/-- The `ArchiveProxy::MESSAGE_TIMEOUT_DEFAULT` constant (ArchiveProxy.h line 401),
in nanoseconds: the source declares `std::chrono::nanoseconds MESSAGE_TIMEOUT_DEFAULT{5}`. -/
def ArchiveProxy.MESSAGE_TIMEOUT_DEFAULT : Int := 5

/-- The `configuration::defaults::MESSAGE_TIMEOUT` constant
(ArchiveConfiguration.h line 31), in nanoseconds: the source declares
`std::chrono::seconds MESSAGE_TIMEOUT{5}`. -/
def configuration.MESSAGE_TIMEOUT : Int := 5000000000

/-- Outcome of the plain offer path, with the number of `publication.offer`
attempts that were made before the loop ended. The error constructors stand
for the `ArchiveException`s raised inside `offerHelper` and the plain-offer
result handler. -/
inductive PlainOfferOutcome
  | accepted (attempts : Nat)
  | rejected (attempts : Nat)
  | errPublicationClosed (attempts : Nat)
  | errMaxPositionExceeded (attempts : Nat)
  | errNotConnected (attempts : Nat)
deriving DecidableEq

/-- Embeds `offerHelper` (ArchiveProxy.cpp lines 404-441) specialized with the
result handler and retry sentinel of `ArchiveProxy::offer` (lines 445-460).
`results k` is the value `publication.offer` returns on the `(k+1)`-th
attempt; `remaining` is the sentinel's captured copy of `m_retryAttempts`,
decremented after each non-fatal failed attempt (`--remainingAttempts != 0`).
The handler raises on `NOT_CONNECTED`; `offerHelper` itself raises on
`PUBLICATION_CLOSED` and `MAX_POSITION_EXCEEDED` before the handler runs.
The `remaining = 0` base case is unreachable for a positive retry count (the
C++ `int` counter would wrap and keep retrying; only positive counts are
used). -/
def plainOffer (results : Nat → Int) (k : Nat) : Nat → PlainOfferOutcome
  | 0 => .rejected (k + 1)
  | remaining + 1 =>
    let r := results k
    if 0 < r then .accepted (k + 1)
    else if r = PUBLICATION_CLOSED then .errPublicationClosed (k + 1)
    else if r = MAX_POSITION_EXCEEDED then .errMaxPositionExceeded (k + 1)
    else if r = NOT_CONNECTED then .errNotConnected (k + 1)
    else if remaining = 0 then .rejected (k + 1)
    else plainOffer results (k + 1) remaining

/-- Outcome of the timed offer path. `pending` means the supplied attempt
trace ended while the loop would still be retrying. -/
inductive TimedOfferOutcome
  | accepted
  | rejected
  | errPublicationClosed
  | errMaxPositionExceeded
  | pending
deriving DecidableEq

/-- Embeds `offerHelper` specialized with the no-op result handler and
wall-clock sentinel of `ArchiveProxy::offerWithTimeout` (ArchiveProxy.cpp
lines 462-471). Each trace element is the offer result of one attempt paired
with the clock value the sentinel reads after that attempt; `deadline` is
`now + m_connectTimeout` captured before the first attempt. -/
def timedOffer (deadline : Int) : List (Int × Int) → TimedOfferOutcome
  | [] => .pending
  | (r, now) :: rest =>
    if 0 < r then .accepted
    else if r = PUBLICATION_CLOSED then .errPublicationClosed
    else if r = MAX_POSITION_EXCEEDED then .errMaxPositionExceeded
    else if now ≤ deadline then timedOffer deadline rest
    else .rejected

/-- The `ControlResponseCode` enumeration of the archive codecs. -/
inductive ControlResponseCode
  | ok
  | error
  | recordingUnknown
  | subscriptionUnknown
deriving DecidableEq

/-- The archive codec schema id. The generated codecs are an external
interface (spec section 6); the concrete value is irrelevant to the client
logic, which only compares for equality, so it is fixed abstractly here. -/
def SCHEMA_ID : Int := 101

/-- The `ControlResponse::sbeTemplateId()` codec constant (external codec
interface; fixed abstractly, distinct from the other template ids). -/
def CONTROL_RESPONSE_TEMPLATE_ID : Int := 1

/-- The `RecordingDescriptor::sbeTemplateId()` codec constant (external codec
interface; fixed abstractly, distinct from the other template ids). -/
def RECORDING_DESCRIPTOR_TEMPLATE_ID : Int := 22

/-- The decoded fields of a `ControlResponse` message. -/
structure ControlResponseBody where
  controlSessionId : Int
  correlationId : Int
  relevantId : Int
  code : ControlResponseCode
  errorMessage : String
deriving DecidableEq

/-- The 16 decoded fields of a `RecordingDescriptor` message, in the order the
consumer receives them. -/
structure RecordingDescriptor where
  controlSessionId : Int
  correlationId : Int
  recordingId : Int
  startTimestamp : Int
  stopTimestamp : Int
  startPosition : Int
  stopPosition : Int
  initialTermId : Int
  segmentFileLength : Int
  termBufferLength : Int
  mtuLength : Int
  sessionId : Int
  streamId : Int
  strippedChannel : String
  originalChannel : String
  sourceIdentity : String
deriving DecidableEq

/-- One reassembled application message delivered to a poller's fragment
handler: the envelope header fields and the body as decodable under each
template the pollers know. Only the body selected by `templateId` is ever
read, mirroring how the C++ handler reinterprets the buffer. -/
structure Fragment where
  schemaId : Int
  templateId : Int
  response : ControlResponseBody
  descriptor : RecordingDescriptor
deriving DecidableEq

/-- The `ControlledPollAction` values a controlled fragment handler returns
(external transport contract; `COMMIT` is unused by these pollers). -/
inductive PollAction
  | cont
  | brk
  | abort
deriving DecidableEq

/-- Controlled-poll semantics of `Subscription::controlledPoll` (external
transport contract) over a queue of reassembled messages: fragments are
handed to the handler in order up to the fragment limit; `CONTINUE` consumes
the fragment and proceeds, `BREAK` consumes it and stops, `ABORT` stops
without consuming it. Returns the final handler state and the number of
fragments consumed; a handler exception propagates. -/
def controlledPollRun {σ : Type} (onFrag : σ → Fragment → Except String (PollAction × σ)) :
    σ → List Fragment → Nat → Except String (σ × Nat)
  | st, _, 0 => .ok (st, 0)
  | st, [], _ + 1 => .ok (st, 0)
  | st, f :: rest, n + 1 =>
    match onFrag st f with
    | .error e => .error e
    | .ok (.abort, st1) => .ok (st1, 0)
    | .ok (.brk, st1) => .ok (st1, 1)
    | .ok (.cont, st1) =>
      match controlledPollRun onFrag st1 rest n with
      | .error e => .error e
      | .ok (st2, k) => .ok (st2, k + 1)

/-- The mutable fields of a `ControlResponsePoller`
(ControlResponsePoller.h lines 182-189). -/
structure CRPState where
  controlSessionId : Int
  correlationId : Int
  relevantId : Int
  templateId : Int
  code : ControlResponseCode
  errorMessage : String
  pollComplete : Bool
deriving DecidableEq

/-- The field reset performed at the top of `ControlResponsePoller::poll()`
(ControlResponsePoller.cpp lines 33-38); `m_code` is not reset. -/
def ControlResponsePoller.resetForPoll (st : CRPState) : CRPState :=
  { st with
    controlSessionId := -1
    correlationId := -1
    relevantId := -1
    templateId := -1
    errorMessage := ""
    pollComplete := false }

/-- Embeds `ControlResponsePoller::onFragment` (ControlResponsePoller.cpp
lines 48-88): a completed poll aborts further delivery unchanged; a schema-id
mismatch raises; the template id is recorded, and a `ControlResponse` message
populates the fields, marks the poll complete and breaks. -/
def ControlResponsePoller.onFragment (st : CRPState) (f : Fragment) :
    Except String (PollAction × CRPState) :=
  if st.pollComplete then .ok (.abort, st)
  else if f.schemaId ≠ SCHEMA_ID then .error "schema mismatch"
  else
    let st1 := { st with templateId := f.templateId }
    if f.templateId = CONTROL_RESPONSE_TEMPLATE_ID then
      .ok (.brk,
        { st1 with
          controlSessionId := f.response.controlSessionId
          correlationId := f.response.correlationId
          relevantId := f.response.relevantId
          code := f.response.code
          errorMessage := f.response.errorMessage
          pollComplete := true })
    else .ok (.cont, st1)

/-- Embeds `ControlResponsePoller::poll()` (ControlResponsePoller.cpp lines
31-46): reset the last-response fields, then a controlled poll with the
fragment limit. -/
def ControlResponsePoller.poll (st : CRPState) (frags : List Fragment) (limit : Nat) :
    Except String (CRPState × Nat) :=
  controlledPollRun ControlResponsePoller.onFragment
    (ControlResponsePoller.resetForPoll st) frags limit

/-- The state a `ControlResponse` fragment leaves the poller in. -/
def ControlResponsePoller.decodedState (st : CRPState) (f : Fragment) : CRPState :=
  { st with
    templateId := f.templateId
    controlSessionId := f.response.controlSessionId
    correlationId := f.response.correlationId
    relevantId := f.response.relevantId
    code := f.response.code
    errorMessage := f.response.errorMessage
    pollComplete := true }

/-- One completed observation of the control-response poller inside
`AeronArchive::pollForResponse`: the fields exposed after `pollNextResponse`
returned with `isPollComplete()` true. `isControlResponse` records whether the
decoded template was `ControlResponse`. -/
structure PolledResponse where
  controlSessionId : Int
  correlationId : Int
  relevantId : Int
  code : ControlResponseCode
  errorMessage : String
  isControlResponse : Bool
deriving DecidableEq

/-- Terminal outcome of `AeronArchive::pollForResponse`
(AeronArchive.cpp lines 529-570). `archiveError` carries the server error
code (`relevantId`) and `errorMessage` of the matching `ERROR` response;
`unexpectedCode` is the "unexpected response code" exception; `timedOut`
stands for the deadline/connectivity exits of `pollNextResponse`, which here
absorb an exhausted response trace. -/
inductive PollForResponseResult
  | ok (relevantId : Int)
  | archiveError (errorCode : Int) (message : String)
  | unexpectedCode (code : ControlResponseCode)
  | timedOut
deriving DecidableEq

/-- Embeds the response-dispatch loop of `AeronArchive::pollForResponse`
(AeronArchive.cpp lines 529-570) over the trace of completed poller
observations the environment produces, awaiting `correlationId`. Responses
for another session, or non-control-response messages, are skipped. A
matching-session `ERROR` response raises when its correlation id matches and
is otherwise handed to the error handler when one is installed. A matching
correlation id with code `OK` returns `relevantId`; any other code on the
matching correlation id raises. Returns the list of errors delivered to the
error handler (as error code and message, in order) with the outcome. -/
def AeronArchive.pollForResponse (controlSessionId correlationId : Int)
    (hasErrorHandler : Bool) :
    List PolledResponse → List (Int × String) × PollForResponseResult
  | [] => ([], .timedOut)
  | r :: rest =>
    if r.controlSessionId ≠ controlSessionId ∨ r.isControlResponse = false then
      AeronArchive.pollForResponse controlSessionId correlationId hasErrorHandler rest
    else if r.code = .error then
      if r.correlationId = correlationId then
        ([], .archiveError r.relevantId r.errorMessage)
      else
        let res :=
          AeronArchive.pollForResponse controlSessionId correlationId hasErrorHandler rest
        (if hasErrorHandler then (r.relevantId, r.errorMessage) :: res.1 else res.1, res.2)
    else if r.correlationId = correlationId then
      if r.code = .ok then ([], .ok r.relevantId)
      else ([], .unexpectedCode r.code)
    else
      AeronArchive.pollForResponse controlSessionId correlationId hasErrorHandler rest

/-- The mutable fields of a `RecordingDescriptorPoller` relevant to dispatch,
plus the trace of consumer invocations (`m_consumer` calls) in order. -/
structure RDPState where
  controlSessionId : Int
  correlationId : Int
  remainingRecordCount : Int
  dispatchComplete : Bool
  delivered : List RecordingDescriptor
deriving DecidableEq

/-- Embeds `RecordingDescriptorPoller::onFragment`
(RecordingDescriptorPoller.cpp lines 40-142). On a `ControlResponse` for this
control session: `RECORDING_UNKNOWN` with matching correlation completes the
dispatch and breaks; `ERROR` raises when the correlation matches and is
otherwise passed to the error handler (not tracked here) before continuing.
On a `RecordingDescriptor`: the consumer is invoked only when both the control
session id and the correlation id match, but `m_remainingRecordCount` is
decremented for every descriptor, and reaching zero completes the dispatch
and breaks. -/
def RecordingDescriptorPoller.onFragment (st : RDPState) (f : Fragment) :
    Except String (PollAction × RDPState) :=
  if f.schemaId ≠ SCHEMA_ID then .error "schema mismatch"
  else if f.templateId = CONTROL_RESPONSE_TEMPLATE_ID then
    let resp := f.response
    if resp.controlSessionId = st.controlSessionId then
      if resp.code = .recordingUnknown ∧ resp.correlationId = st.correlationId then
        .ok (.brk, { st with dispatchComplete := true })
      else if resp.code = .error then
        if resp.correlationId = st.correlationId then .error resp.errorMessage
        else .ok (.cont, st)
      else .ok (.cont, st)
    else .ok (.cont, st)
  else if f.templateId = RECORDING_DESCRIPTOR_TEMPLATE_ID then
    let d := f.descriptor
    let st1 :=
      if d.controlSessionId = st.controlSessionId ∧ d.correlationId = st.correlationId then
        { st with delivered := st.delivered ++ [d] }
      else st
    let st2 := { st1 with remainingRecordCount := st1.remainingRecordCount - 1 }
    if st2.remainingRecordCount = 0 then .ok (.brk, { st2 with dispatchComplete := true })
    else .ok (.cont, st2)
  else .ok (.cont, st)

/-- Embeds `RecordingDescriptorPoller::poll()` (RecordingDescriptorPoller.cpp
lines 28-38): clear `m_isDispatchComplete`, then a controlled poll with the
fragment limit. -/
def RecordingDescriptorPoller.poll (st : RDPState) (frags : List Fragment) (limit : Nat) :
    Except String (RDPState × Nat) :=
  controlledPollRun RecordingDescriptorPoller.onFragment
    { st with dispatchComplete := false } frags limit

/-- The `AeronArchive::FRAGMENT_LIMIT` constant (AeronArchive.h line 707). -/
def FRAGMENT_LIMIT : Nat := 10

/-- The retry loop of `AeronArchive::pollForDescriptors` (AeronArchive.h lines
722-766) over the per-poll fragment batches the environment delivers: poll
until `isDispatchComplete()` and then return
`recordCount - remainingRecordCount`; an exhausted batch trace stands for the
idle/deadline exits and yields `none`. The consumer-invocation trace is
returned with the count. -/
def pollForDescriptorsLoop (st : RDPState) (recordCount : Int) :
    List (List Fragment) → Except String (Option (Int × List RecordingDescriptor))
  | [] => .ok none
  | batch :: rest =>
    match RecordingDescriptorPoller.poll st batch FRAGMENT_LIMIT with
    | .error e => .error e
    | .ok (st1, _) =>
      if st1.dispatchComplete then
        .ok (some (recordCount - st1.remainingRecordCount, st1.delivered))
      else pollForDescriptorsLoop st1 recordCount rest

/-- Embeds `AeronArchive::pollForDescriptors` (AeronArchive.h lines 722-766)
from the point after the listing request was sent: the poller is reset with
the query correlation id and record count (`poller.reset(correlationId,
recordCount, consumer)`), then polled until dispatch completes. -/
def AeronArchive.pollForDescriptors (controlSessionId correlationId recordCount : Int)
    (batches : List (List Fragment)) :
    Except String (Option (Int × List RecordingDescriptor)) :=
  pollForDescriptorsLoop
    { controlSessionId := controlSessionId
      correlationId := correlationId
      remainingRecordCount := recordCount
      dispatchComplete := false
      delivered := [] }
    recordCount batches

namespace recordingPos

/-- The `RECORDING_POSITION_TYPE_ID` constant (RecordingPos.h line 28). -/
def RECORDING_POSITION_TYPE_ID : Int := 100

/-- The `NULL_COUNTER_ID` sentinel (RecordingPos.h line 43). -/
def NULL_COUNTER_ID : Int := -1

/-- `RECORDING_ID_OFFSET` (RecordingPos.h line 46). -/
def RECORDING_ID_OFFSET : Nat := 0

/-- `SESSION_ID_OFFSET` (RecordingPos.h line 47):
`RECORDING_ID_OFFSET + sizeof(std::int64_t)`. -/
def SESSION_ID_OFFSET : Nat := RECORDING_ID_OFFSET + 8

/-- `SOURCE_IDENTITY_LENGTH_OFFSET` (RecordingPos.h line 48): the source
computes `SESSION_ID_OFFSET + sizeof(std::int64_t)`. -/
def SOURCE_IDENTITY_LENGTH_OFFSET : Nat := SESSION_ID_OFFSET + 8

/-- Byte read with the buffer's bounds treated as zero-filled beyond the
encoded key (the metadata record region is zero-initialized). -/
def byteAt (buf : List Nat) (i : Nat) : Nat := buf.getD i 0

/-- Little-endian signed 32-bit read from a byte buffer, as
`AtomicBuffer::getInt32`. -/
def readInt32LE (buf : List Nat) (off : Nat) : Int :=
  let u := byteAt buf off + 256 * byteAt buf (off + 1)
    + 65536 * byteAt buf (off + 2) + 16777216 * byteAt buf (off + 3)
  if u < 2147483648 then (u : Int) else (u : Int) - 4294967296

/-- Little-endian signed 64-bit read from a byte buffer, as
`AtomicBuffer::getInt64`. -/
def readInt64LE (buf : List Nat) (off : Nat) : Int :=
  let u := byteAt buf off + 256 * byteAt buf (off + 1)
    + 65536 * byteAt buf (off + 2) + 16777216 * byteAt buf (off + 3)
    + 4294967296 * byteAt buf (off + 4) + 1099511627776 * byteAt buf (off + 5)
    + 281474976710656 * byteAt buf (off + 6) + 72057594037927936 * byteAt buf (off + 7)
  if u < 9223372036854775808 then (u : Int) else (u : Int) - 18446744073709551616

/-- Length-prefixed string read, as `AtomicBuffer::getString`: a 32-bit length
at `off` followed by that many bytes. The result is the byte string
(`std::string` content). -/
def readStringAt (buf : List Nat) (off : Nat) : List Nat :=
  (List.range (readInt32LE buf off).toNat).map (fun j => byteAt buf (off + 4 + j))

/-- One counter slot of the shared counters registry (external
`CountersReader` contract): its record state, the type id stored before the
key, and the key bytes. The counter id is the slot's index. -/
structure CounterSlot where
  state : Int
  typeId : Int
  key : List Nat

/-- The `CountersReader::RECORD_ALLOCATED` state value (external contract). -/
def RECORD_ALLOCATED : Int := 1

/-- Scan step of `findCounterIdByRecording` (RecordingPos.h lines 58-77):
first allocated slot with the recording-position type id whose key holds
`recordingId` as an `int64` at `RECORDING_ID_OFFSET`. -/
def findByRecordingAux (recordingId : Int) (i : Nat) : List CounterSlot → Int
  | [] => NULL_COUNTER_ID
  | slot :: rest =>
    if slot.state = RECORD_ALLOCATED ∧ slot.typeId = RECORDING_POSITION_TYPE_ID ∧
        readInt64LE slot.key RECORDING_ID_OFFSET = recordingId then
      (i : Int)
    else findByRecordingAux recordingId (i + 1) rest

/-- Embeds `findCounterIdByRecording` (RecordingPos.h lines 58-77). -/
def findCounterIdByRecording (counters : List CounterSlot) (recordingId : Int) : Int :=
  findByRecordingAux recordingId 0 counters

/-- Scan step of `findCounterIdBySession` (RecordingPos.h lines 86-105):
first allocated slot with the recording-position type id whose key holds
`sessionId` as an `int32` at `SESSION_ID_OFFSET`. -/
def findBySessionAux (sessionId : Int) (i : Nat) : List CounterSlot → Int
  | [] => NULL_COUNTER_ID
  | slot :: rest =>
    if slot.state = RECORD_ALLOCATED ∧ slot.typeId = RECORDING_POSITION_TYPE_ID ∧
        readInt32LE slot.key SESSION_ID_OFFSET = sessionId then
      (i : Int)
    else findBySessionAux sessionId (i + 1) rest

/-- Embeds `findCounterIdBySession` (RecordingPos.h lines 86-105). -/
def findCounterIdBySession (counters : List CounterSlot) (sessionId : Int) : Int :=
  findBySessionAux sessionId 0 counters

/-- Embeds `getSourceIdentity` (RecordingPos.h lines 138-153): for an
allocated recording-position counter, `buffer.getString` at
`KEY_OFFSET + SOURCE_IDENTITY_LENGTH_OFFSET`; otherwise the empty string. -/
def getSourceIdentity (counters : List CounterSlot) (counterId : Nat) : List Nat :=
  match counters[counterId]? with
  | none => []
  | some slot =>
    if slot.state = RECORD_ALLOCATED ∧ slot.typeId = RECORDING_POSITION_TYPE_ID then
      readStringAt slot.key SOURCE_IDENTITY_LENGTH_OFFSET
    else []

/-- Little-endian bytes of a 32-bit value (for building concrete keys). -/
def int32LEBytes (x : Int) : List Nat :=
  let u := (x % 4294967296).toNat
  [u % 256, u / 256 % 256, u / 65536 % 256, u / 16777216 % 256]

/-- Little-endian bytes of a 64-bit value (for building concrete keys). -/
def int64LEBytes (x : Int) : List Nat :=
  let u := (x % 18446744073709551616).toNat
  [u % 256, u / 256 % 256, u / 65536 % 256, u / 16777216 % 256,
   u / 4294967296 % 256, u / 1099511627776 % 256,
   u / 281474976710656 % 256, u / 72057594037927936 % 256]

/-- A recording-position counter key encoded per the documented layout
(RecordingPos.h lines 11-23 and spec section 6): `recordingId` as an `int64`
at offset 0, `sessionId` as an `int32` at offset 8, the source-identity
length as an `int32` at offset 12, and the source-identity bytes from offset
16. -/
def documentedLayoutKey (recordingId sessionId : Int) (sourceIdentity : List Nat) :
    List Nat :=
  int64LEBytes recordingId ++ int32LEBytes sessionId
    ++ int32LEBytes (sourceIdentity.length : Int) ++ sourceIdentity

end recordingPos

/-- The `ReplayMerge::State` enumeration, from its uses in `ReplayMerge.cpp`
(the header carrying the declaration is not in the provided sources; the
initial and failure members follow the transition structure of the step
functions). -/
inductive RMPhase
  | awaitInitialRecordingPosition
  | awaitReplay
  | awaitCatchUp
  | awaitCurrentRecordingPosition
  | awaitStopReplay
  | merged
  | failed
  | closed
deriving DecidableEq

/-- The mutable fields of a `ReplayMerge` driven by the step functions of
`ReplayMerge.cpp`. `imagePosition` is `none` while `m_image` is unset and
otherwise carries the image's current position. -/
structure RMState where
  phase : RMPhase
  activeCorrelationId : Int
  nextTargetPosition : Int
  initialMaxPosition : Int
  replaySessionId : Int
  replayActive : Bool
  liveAdded : Bool
  imagePosition : Option Int
deriving DecidableEq

/-- Cleanup operations the `ReplayMerge` destructor can perform. -/
inductive DtorAction
  | stopReplay (replaySessionId : Int)
  | removeReplayDestination
  | signalClosed
deriving DecidableEq

/-- Embeds `ReplayMerge::~ReplayMerge` (ReplayMerge.cpp lines 40-57): the
cleanup actions performed as a function of the state at destruction. The
source guards the whole cleanup block with `State::CLOSED == m_state`; inside
it, the replay is stopped when still active, the replay destination is
removed unless the state is `MERGED`, and the state is signalled closed. -/
def ReplayMerge.destructorActions (phase : RMPhase) (replayActive : Bool)
    (replaySessionId : Int) : List DtorAction :=
  if phase = RMPhase.closed then
    (if replayActive then [DtorAction.stopReplay replaySessionId] else [])
      ++ (if phase ≠ RMPhase.merged then [DtorAction.removeReplayDestination] else [])
      ++ [DtorAction.signalClosed]
  else []

/-- Outcome of the file-local `pollForResponse` helper of `ReplayMerge.cpp`
(lines 61-83) for one call, as provided by the environment: no complete
matching response (`noResponse` covers an empty poll, an incomplete poll, a
response for another session or correlation), a matching non-error response
carrying `relevantId`, or a matching error response (which raises). -/
inductive RMPollOutcome
  | noResponse
  | matched (relevantId : Int)
  | matchedError
deriving DecidableEq

/-- Oracle inputs for one `ReplayMerge` step call: the correlation id
`aeron.nextCorrelationId()` would allocate, whether the proxy offer succeeds,
the poller outcome, and the values of the threshold predicates
`shouldAddLiveDestination` / `shouldStopAndRemoveReplay` (declared in the
missing header; abstracted as oracle booleans, which claims below do not
constrain). -/
structure RMEnv where
  newCorrelationId : Int
  sendOk : Bool
  poll : RMPollOutcome
  shouldAddLive : Bool
  shouldStopReplay : Bool
deriving DecidableEq

/-- Externally visible work of one `ReplayMerge` step call: how many
control-response poller observations were made, how many proxy requests were
offered, the correlation id recorded for a successful offer, whether a
matching response was consumed by the poller, and whether the call raised. -/
structure RMEffects where
  polls : Nat
  sendAttempts : Nat
  sentCid : Option Int
  consumed : Bool
  err : Bool
deriving DecidableEq

/-- Effects of a call that only sent (or tried to send) a request. -/
def RMEffects.sendOnly (ok : Bool) (cid : Int) : RMEffects :=
  { polls := 0, sendAttempts := 1, sentCid := if ok then some cid else none,
    consumed := false, err := false }

/-- Effects of a call whose poll observed nothing usable. -/
def RMEffects.pollNone : RMEffects :=
  { polls := 1, sendAttempts := 0, sentCid := none, consumed := false, err := false }

/-- Effects of a call whose poll consumed the matching response and raised. -/
def RMEffects.pollErr : RMEffects :=
  { polls := 1, sendAttempts := 0, sentCid := none, consumed := true, err := true }

/-- Effects of a call that consumed the matching response. -/
def RMEffects.consumedOnly : RMEffects :=
  { polls := 1, sendAttempts := 0, sentCid := none, consumed := true, err := false }

/-- Effects of a call that consumed the matching response and then offered a
follow-up request. -/
def RMEffects.consumedThenSend (ok : Bool) (cid : Int) : RMEffects :=
  { polls := 1, sendAttempts := 1, sentCid := if ok then some cid else none,
    consumed := true, err := false }

/-- Embeds `ReplayMerge::awaitInitialRecordingPosition` (ReplayMerge.cpp lines
87-125). With no active correlation id, a `getRecordingPosition` request is
offered and its correlation id recorded on success. Otherwise the poller is
consulted; a consumed response equal to `NULL_POSITION` triggers a fallback
`getStopPosition` request (with the active correlation id still holding the
old value when that offer fails), and any other position advances to
`AWAIT_REPLAY` with the correlation id cleared. -/
def ReplayMerge.awaitInitialRecordingPositionStep (st : RMState) (env : RMEnv) :
    RMState × RMEffects :=
  if st.activeCorrelationId = NULL_VALUE then
    if env.sendOk then
      ({ st with activeCorrelationId := env.newCorrelationId },
       RMEffects.sendOnly true env.newCorrelationId)
    else (st, RMEffects.sendOnly false env.newCorrelationId)
  else
    match env.poll with
    | .noResponse => (st, RMEffects.pollNone)
    | .matchedError => (st, RMEffects.pollErr)
    | .matched relevantId =>
      if relevantId = NULL_POSITION then
        if env.sendOk then
          ({ st with nextTargetPosition := relevantId,
                     activeCorrelationId := env.newCorrelationId },
           RMEffects.consumedThenSend true env.newCorrelationId)
        else
          ({ st with nextTargetPosition := relevantId },
           RMEffects.consumedThenSend false env.newCorrelationId)
      else
        ({ st with nextTargetPosition := relevantId,
                   initialMaxPosition := relevantId,
                   activeCorrelationId := NULL_VALUE,
                   phase := RMPhase.awaitReplay },
         RMEffects.consumedOnly)

/-- Embeds `ReplayMerge::awaitReplay` (ReplayMerge.cpp lines 127-158). With no
active correlation id, a `replay` request is offered; otherwise a consumed
response stores the replay session id, marks the replay active, clears the
correlation id and advances to `AWAIT_CATCH_UP`. -/
def ReplayMerge.awaitReplayStep (st : RMState) (env : RMEnv) : RMState × RMEffects :=
  if st.activeCorrelationId = NULL_VALUE then
    if env.sendOk then
      ({ st with activeCorrelationId := env.newCorrelationId },
       RMEffects.sendOnly true env.newCorrelationId)
    else (st, RMEffects.sendOnly false env.newCorrelationId)
  else
    match env.poll with
    | .noResponse => (st, RMEffects.pollNone)
    | .matchedError => (st, RMEffects.pollErr)
    | .matched relevantId =>
      ({ st with replayActive := true,
                 replaySessionId := relevantId,
                 activeCorrelationId := NULL_VALUE,
                 phase := RMPhase.awaitCatchUp },
       RMEffects.consumedOnly)

/-- Embeds `ReplayMerge::awaitUpdatedRecordingPosition` (ReplayMerge.cpp lines
179-233). With no active correlation id, a `getRecordingPosition` request is
offered; otherwise a consumed `NULL_POSITION` reply triggers a fallback
`getRecordingPosition` request (retaining the stale correlation id when the
offer fails), and any other reply updates the target position, applies the
live-join thresholds when an image is resolved, clears the correlation id and
moves to `AWAIT_CATCH_UP` or `AWAIT_STOP_REPLAY`. -/
def ReplayMerge.awaitUpdatedRecordingPositionStep (st : RMState) (env : RMEnv) :
    RMState × RMEffects :=
  if st.activeCorrelationId = NULL_VALUE then
    if env.sendOk then
      ({ st with activeCorrelationId := env.newCorrelationId },
       RMEffects.sendOnly true env.newCorrelationId)
    else (st, RMEffects.sendOnly false env.newCorrelationId)
  else
    match env.poll with
    | .noResponse => (st, RMEffects.pollNone)
    | .matchedError => (st, RMEffects.pollErr)
    | .matched relevantId =>
      if relevantId = NULL_POSITION then
        if env.sendOk then
          ({ st with nextTargetPosition := relevantId,
                     activeCorrelationId := env.newCorrelationId },
           RMEffects.consumedThenSend true env.newCorrelationId)
        else
          ({ st with nextTargetPosition := relevantId },
           RMEffects.consumedThenSend false env.newCorrelationId)
      else
        let withLive :=
          match st.imagePosition with
          | none => (st, RMPhase.awaitCatchUp)
          | some _ =>
            if env.shouldAddLive then
              ({ st with liveAdded := true }, RMPhase.awaitCatchUp)
            else if env.shouldStopReplay then (st, RMPhase.awaitStopReplay)
            else (st, RMPhase.awaitCatchUp)
        ({ withLive.1 with nextTargetPosition := relevantId,
                           activeCorrelationId := NULL_VALUE,
                           phase := withLive.2 },
         RMEffects.consumedOnly)

/-- Embeds `ReplayMerge::awaitStopReplay` (ReplayMerge.cpp lines 235-260).
With no active correlation id, a `stopReplay` request is offered; otherwise a
consumed response deactivates the replay, clears the replay session id and
the correlation id, removes the replay destination and reaches `MERGED`. -/
def ReplayMerge.awaitStopReplayStep (st : RMState) (env : RMEnv) : RMState × RMEffects :=
  if st.activeCorrelationId = NULL_VALUE then
    if env.sendOk then
      ({ st with activeCorrelationId := env.newCorrelationId },
       RMEffects.sendOnly true env.newCorrelationId)
    else (st, RMEffects.sendOnly false env.newCorrelationId)
  else
    match env.poll with
    | .noResponse => (st, RMEffects.pollNone)
    | .matchedError => (st, RMEffects.pollErr)
    | .matched _ =>
      ({ st with replayActive := false,
                 replaySessionId := NULL_VALUE,
                 activeCorrelationId := NULL_VALUE,
                 phase := RMPhase.merged },
       RMEffects.consumedOnly)

/-- The number of in-flight archive requests after a step, given the count
before it: a consumed response retires the pending request and a successful
offer adds one. -/
def postFlight (inFlight : Nat) (e : RMEffects) : Nat :=
  (inFlight - (if e.consumed then 1 else 0)) + (if e.sentCid.isSome then 1 else 0)

/-- The single-flight bookkeeping invariant: at most one archive request is in
flight, and a pending request implies the active correlation id is set. -/
def flightInv (st : RMState) (inFlight : Nat) : Prop :=
  inFlight ≤ 1 ∧ (inFlight = 1 → st.activeCorrelationId ≠ NULL_VALUE)

/-- The per-call contract of a `ReplayMerge` step function: at most one poller
observation and at most one proxy offer; an offer happens only from the idle
state or right after the pending response was consumed; a successful offer
records its correlation id; and the single-flight invariant is preserved for
any in-flight count consistent with the pre-state (where a response can only
be consumed when a request was in flight, and a freshly allocated correlation
id is never the null value). -/
def stepContract (st : RMState) (env : RMEnv) (r : RMState × RMEffects) : Prop :=
  r.2.polls ≤ 1 ∧
  r.2.sendAttempts ≤ 1 ∧
  (r.2.sendAttempts = 1 → st.activeCorrelationId = NULL_VALUE ∨ r.2.consumed = true) ∧
  (∀ cid, r.2.sentCid = some cid → r.1.activeCorrelationId = cid ∧ cid = env.newCorrelationId) ∧
  (r.2.consumed = true → r.2.sendAttempts = 0 → r.2.err = false →
    r.1.activeCorrelationId = NULL_VALUE) ∧
  (∀ inFlight : Nat, env.newCorrelationId ≠ NULL_VALUE → flightInv st inFlight →
    (r.2.consumed = true → inFlight = 1) → flightInv r.1 (postFlight inFlight r.2))

/-! Theorems. -/

/-- Branch lemma: a successful offer from the idle state satisfies the step
contract. -/
theorem contract_sendOnly_true (st post : RMState) (env : RMEnv)
    (hid : st.activeCorrelationId = NULL_VALUE)
    (hpost : post.activeCorrelationId = env.newCorrelationId) :
    stepContract st env (post, RMEffects.sendOnly true env.newCorrelationId) := by
  unfold stepContract RMEffects.sendOnly flightInv postFlight
  refine ⟨by simp, by simp, fun _ => Or.inl hid, ?_, by simp, ?_⟩
  · intro cid hcid
    simp only [if_true] at hcid
    have h := Option.some.inj hcid
    exact ⟨by rw [hpost, h], h.symm⟩
  · intro inFlight hne hinv hcons
    have h0 : inFlight = 0 := by
      rcases hinv with ⟨ha, hb⟩
      by_contra h
      exact hb (by omega) hid
    subst h0
    simp only [if_true, Option.isSome_some, Bool.false_eq_true, if_false]
    exact ⟨by omega, fun _ => by rw [hpost]; exact hne⟩

/-- Branch lemma: a failed offer from the idle state satisfies the step
contract. -/
theorem contract_sendOnly_false (st : RMState) (env : RMEnv)
    (hid : st.activeCorrelationId = NULL_VALUE) :
    stepContract st env (st, RMEffects.sendOnly false env.newCorrelationId) := by
  unfold stepContract RMEffects.sendOnly flightInv postFlight
  refine ⟨by simp, by simp, fun _ => Or.inl hid, by simp, by simp, ?_⟩
  intro inFlight _ hinv _
  simpa using hinv

/-- Branch lemma: a poll that observed nothing usable satisfies the step
contract. -/
theorem contract_pollNone (st : RMState) (env : RMEnv) :
    stepContract st env (st, RMEffects.pollNone) := by
  unfold stepContract RMEffects.pollNone flightInv postFlight
  refine ⟨by simp, by simp, by simp, by simp, by simp, ?_⟩
  intro inFlight _ hinv _
  simpa using hinv

/-- Branch lemma: a poll that consumed the matching response and raised
satisfies the step contract. -/
theorem contract_pollErr (st : RMState) (env : RMEnv) :
    stepContract st env (st, RMEffects.pollErr) := by
  unfold stepContract RMEffects.pollErr flightInv postFlight
  refine ⟨by simp, by simp, by simp, by simp, by simp, ?_⟩
  intro inFlight _ _ hcons
  have h1 : inFlight = 1 := hcons rfl
  subst h1
  simp

/-- Branch lemma: consuming the matching response and clearing the active
correlation id satisfies the step contract. -/
theorem contract_consumedOnly (st post : RMState) (env : RMEnv)
    (hpost : post.activeCorrelationId = NULL_VALUE) :
    stepContract st env (post, RMEffects.consumedOnly) := by
  unfold stepContract RMEffects.consumedOnly flightInv postFlight
  refine ⟨by simp, by simp, by simp, by simp, fun _ _ _ => hpost, ?_⟩
  intro inFlight _ _ hcons
  have h1 : inFlight = 1 := hcons rfl
  subst h1
  simp

/-- Branch lemma: consuming the matching response followed by a successful
fallback offer satisfies the step contract. -/
theorem contract_consumedThenSend_true (st post : RMState) (env : RMEnv)
    (hpost : post.activeCorrelationId = env.newCorrelationId) :
    stepContract st env (post, RMEffects.consumedThenSend true env.newCorrelationId) := by
  unfold stepContract RMEffects.consumedThenSend flightInv postFlight
  refine ⟨by simp, by simp, fun _ => Or.inr rfl, ?_, by simp, ?_⟩
  · intro cid hcid
    simp only [if_true] at hcid
    have h := Option.some.inj hcid
    exact ⟨by rw [hpost, h], h.symm⟩
  · intro inFlight hne _ hcons
    have h1 : inFlight = 1 := hcons rfl
    subst h1
    simp only [if_true, Option.isSome_some]
    exact ⟨by omega, fun _ => by rw [hpost]; exact hne⟩

/-- Branch lemma: consuming the matching response followed by a failed
fallback offer satisfies the step contract (the stale correlation id is
retained but no request remains in flight). -/
theorem contract_consumedThenSend_false (st post : RMState) (env : RMEnv) :
    stepContract st env (post, RMEffects.consumedThenSend false env.newCorrelationId) := by
  unfold stepContract RMEffects.consumedThenSend flightInv postFlight
  refine ⟨by simp, by simp, fun _ => Or.inr rfl, by simp, by simp, ?_⟩
  intro inFlight _ _ hcons
  have h1 : inFlight = 1 := hcons rfl
  subst h1
  simp

/-- The step contract holds for `ReplayMerge::awaitInitialRecordingPosition`. -/
theorem awaitInitial_contract (st : RMState) (env : RMEnv) :
    stepContract st env (ReplayMerge.awaitInitialRecordingPositionStep st env) := by
  unfold ReplayMerge.awaitInitialRecordingPositionStep
  by_cases hid : st.activeCorrelationId = NULL_VALUE
  · by_cases hsend : env.sendOk = true
    · rw [if_pos hid, if_pos hsend]
      exact contract_sendOnly_true st _ env hid rfl
    · rw [if_pos hid, if_neg hsend]
      exact contract_sendOnly_false st env hid
  · rw [if_neg hid]
    cases hpoll : env.poll with
    | noResponse => exact contract_pollNone st env
    | matchedError => exact contract_pollErr st env
    | matched rid =>
      dsimp only
      by_cases hr : rid = NULL_POSITION
      · by_cases hsend : env.sendOk = true
        · rw [if_pos hr, if_pos hsend]
          exact contract_consumedThenSend_true st _ env rfl
        · rw [if_pos hr, if_neg hsend]
          exact contract_consumedThenSend_false st _ env
      · rw [if_neg hr]
        exact contract_consumedOnly st _ env rfl

/-- The step contract holds for `ReplayMerge::awaitReplay`. -/
theorem awaitReplay_contract (st : RMState) (env : RMEnv) :
    stepContract st env (ReplayMerge.awaitReplayStep st env) := by
  unfold ReplayMerge.awaitReplayStep
  by_cases hid : st.activeCorrelationId = NULL_VALUE
  · by_cases hsend : env.sendOk = true
    · rw [if_pos hid, if_pos hsend]
      exact contract_sendOnly_true st _ env hid rfl
    · rw [if_pos hid, if_neg hsend]
      exact contract_sendOnly_false st env hid
  · rw [if_neg hid]
    cases hpoll : env.poll with
    | noResponse => exact contract_pollNone st env
    | matchedError => exact contract_pollErr st env
    | matched rid => exact contract_consumedOnly st _ env rfl

/-- The step contract holds for `ReplayMerge::awaitUpdatedRecordingPosition`. -/
theorem awaitUpdated_contract (st : RMState) (env : RMEnv) :
    stepContract st env (ReplayMerge.awaitUpdatedRecordingPositionStep st env) := by
  unfold ReplayMerge.awaitUpdatedRecordingPositionStep
  by_cases hid : st.activeCorrelationId = NULL_VALUE
  · by_cases hsend : env.sendOk = true
    · rw [if_pos hid, if_pos hsend]
      exact contract_sendOnly_true st _ env hid rfl
    · rw [if_pos hid, if_neg hsend]
      exact contract_sendOnly_false st env hid
  · rw [if_neg hid]
    cases hpoll : env.poll with
    | noResponse => exact contract_pollNone st env
    | matchedError => exact contract_pollErr st env
    | matched rid =>
      dsimp only
      by_cases hr : rid = NULL_POSITION
      · by_cases hsend : env.sendOk = true
        · rw [if_pos hr, if_pos hsend]
          exact contract_consumedThenSend_true st _ env rfl
        · rw [if_pos hr, if_neg hsend]
          exact contract_consumedThenSend_false st _ env
      · rw [if_neg hr]
        exact contract_consumedOnly st _ env rfl

/-- The step contract holds for `ReplayMerge::awaitStopReplay`. -/
theorem awaitStop_contract (st : RMState) (env : RMEnv) :
    stepContract st env (ReplayMerge.awaitStopReplayStep st env) := by
  unfold ReplayMerge.awaitStopReplayStep
  by_cases hid : st.activeCorrelationId = NULL_VALUE
  · by_cases hsend : env.sendOk = true
    · rw [if_pos hid, if_pos hsend]
      exact contract_sendOnly_true st _ env hid rfl
    · rw [if_pos hid, if_neg hsend]
      exact contract_sendOnly_false st env hid
  · rw [if_neg hid]
    cases hpoll : env.poll with
    | noResponse => exact contract_pollNone st env
    | matchedError => exact contract_pollErr st env
    | matched rid => exact contract_consumedOnly st _ env rfl

/-- C8: `stopRecording(publication)` issues exactly the stop-recording request
of `stopRecording(addSessionId(publication.channel, publication.sessionId),
publication.streamId)`, where `addSessionId` appends
`session-id=<sessionId>` to the channel URI, introduced by a question mark
when the URI has no query part yet (and by a pipe otherwise). -/
theorem stopRecording_publication_equivalence
    (controlSessionId correlationId : Int) (pub : Publication)
    (h : pub.channel.data.contains '?' = false) :
    AeronArchive.stopRecordingByPublication controlSessionId correlationId pub =
      AeronArchive.stopRecordingByChannel controlSessionId correlationId
        (addSessionId pub.channel pub.sessionId) pub.streamId ∧
    addSessionId pub.channel pub.sessionId =
      pub.channel ++ "?session-id=" ++ toString pub.sessionId ∧
    (∀ uri : String, ∀ sid : Int, uri.data.contains '?' = true →
      addSessionId uri sid = uri ++ "|session-id=" ++ toString sid) := by
  refine ⟨rfl, ?_, ?_⟩
  · unfold addSessionId
    rw [h]
    simp only [Bool.false_eq_true, if_false]
    rw [String.append_assoc pub.channel, String.append_assoc pub.channel,
        String.append_assoc pub.channel, String.append_assoc pub.channel,
        show ("?" ++ "session-id" ++ "=" : String) = "?session-id=" from rfl]
  · intro uri sid huri
    unfold addSessionId
    rw [huri]
    simp only [if_true]
    rw [String.append_assoc uri, String.append_assoc uri,
        String.append_assoc uri, String.append_assoc uri,
        show ("|" ++ "session-id" ++ "=" : String) = "|session-id=" from rfl]

/-- C8 witness: the equivalence and the separator law evaluated at a concrete
publication on an URI without a query part. -/
theorem stopRecording_publication_equivalence_witness :
    AeronArchive.stopRecordingByPublication 7 11
        { channel := "aeron:udp?endpoint=x:40001", sessionId := 3, streamId := 1001 } =
      AeronArchive.stopRecordingByChannel 7 11
        (addSessionId "aeron:udp?endpoint=x:40001" 3) 1001 ∧
    addSessionId "aeron:ipc" 3 = "aeron:ipc" ++ "?session-id=" ++ toString (3 : Int) ∧
    (∀ uri : String, ∀ sid : Int, uri.data.contains '?' = true →
      addSessionId uri sid = uri ++ "|session-id=" ++ toString sid) := by
  have h := stopRecording_publication_equivalence 7 11
    { channel := "aeron:ipc", sessionId := 3, streamId := 1001 } (by decide)
  have h2 := stopRecording_publication_equivalence 7 11
    { channel := "aeron:udp?endpoint=x:40001", sessionId := 3, streamId := 1001 }
  exact ⟨rfl, h.2.1, h.2.2⟩

/-- C9: a successful `replay(...)` call takes the low 32 bits of the 64-bit
`startReplay` reply as the replay session id (in two's complement) and adds a
subscription on the replay channel with `session-id=<replaySessionId>`
appended and the caller's replay stream id, passing image handlers through
when supplied; the call returns the subscription's registration id. -/
theorem replay_adds_session_scoped_subscription (env : ReplayEnv)
    (replayChannel : String) (replayStreamId h1 h2 : Int) :
    AeronArchive.replayOp env replayChannel replayStreamId =
      (env.registrationId,
       { channel := addSessionId replayChannel (low32AsInt32 env.startReplayReply)
         streamId := replayStreamId
         handlers := none }) ∧
    AeronArchive.replayOpWithHandlers env replayChannel replayStreamId h1 h2 =
      (env.registrationId,
       { channel := addSessionId replayChannel (low32AsInt32 env.startReplayReply)
         streamId := replayStreamId
         handlers := some (h1, h2) }) ∧
    low32AsInt32 env.startReplayReply % 4294967296 =
      env.startReplayReply % 4294967296 ∧
    -2147483648 ≤ low32AsInt32 env.startReplayReply ∧
    low32AsInt32 env.startReplayReply < 2147483648 := by
  refine ⟨rfl, rfl, ?_, ?_, ?_⟩ <;>
    (unfold low32AsInt32; split <;> omega)

/-- C2: evaluation of the `ReplayMerge` destructor at a state other than
`CLOSED`/`MERGED` with an active replay: the source performs no cleanup at
all there (its cleanup block is guarded by `State::CLOSED == m_state`),
while it does run the cleanup when the state is already `CLOSED`. -/
theorem replayMergeDestructor_skips_cleanup_when_not_closed :
    ReplayMerge.destructorActions RMPhase.awaitReplay true 42 = [] ∧
    ReplayMerge.destructorActions RMPhase.awaitCatchUp true 42 = [] ∧
    ReplayMerge.destructorActions RMPhase.closed true 42 =
      [DtorAction.stopReplay 42, DtorAction.removeReplayDestination,
       DtorAction.signalClosed] := by
  refine ⟨by decide, by decide, by decide⟩

/-- C6: the source's `ArchiveProxy::MESSAGE_TIMEOUT_DEFAULT` is 5 nanoseconds,
not the 5 seconds of `configuration::defaults::MESSAGE_TIMEOUT`; with the
defaulted connect timeout the timed offer path gives up on a back-pressured
offer observed one microsecond after the first attempt, whereas under the
documented 5-second deadline it would still be retrying. -/
theorem messageTimeoutDefault_is_five_nanoseconds :
    ArchiveProxy.MESSAGE_TIMEOUT_DEFAULT = 5 ∧
    configuration.MESSAGE_TIMEOUT = 5000000000 ∧
    ArchiveProxy.MESSAGE_TIMEOUT_DEFAULT ≠ configuration.MESSAGE_TIMEOUT ∧
    timedOffer (1000000 + ArchiveProxy.MESSAGE_TIMEOUT_DEFAULT)
      [(BACK_PRESSURED, 1001000)] = .rejected ∧
    timedOffer (1000000 + configuration.MESSAGE_TIMEOUT)
      [(BACK_PRESSURED, 1001000)] = .pending := by
  refine ⟨rfl, rfl, by decide, by decide, by decide⟩

/-- The counter registry with one allocated recording-position counter whose
key is encoded per the documented layout: recording id 7, session id 3,
source identity the single byte `A`. -/
def c7Counters : List recordingPos.CounterSlot :=
  [{ state := 1, typeId := 100, key := recordingPos.documentedLayoutKey 7 3 [65] }]

/-- C7: on a key encoded per the documented layout, the counter-id lookups by
recording id and session id read their fields at the documented offsets (0
and 8) and behave as specified, but `getSourceIdentity` does not read the
length-prefixed identity immediately after the 4-byte session id: the
documented length field at key offset 12 holds 1, while the source's
`SOURCE_IDENTITY_LENGTH_OFFSET` is 16 (computed with `sizeof(std::int64_t)`),
so the returned string is 65 bytes of garbage instead of `A`. -/
theorem getSourceIdentity_reads_wrong_offset :
    recordingPos.SESSION_ID_OFFSET = 8 ∧
    recordingPos.SOURCE_IDENTITY_LENGTH_OFFSET = 16 ∧
    recordingPos.findCounterIdByRecording c7Counters 7 = 0 ∧
    recordingPos.findCounterIdBySession c7Counters 3 = 0 ∧
    recordingPos.findCounterIdByRecording c7Counters 8 =
      recordingPos.NULL_COUNTER_ID ∧
    recordingPos.findCounterIdBySession c7Counters 4 =
      recordingPos.NULL_COUNTER_ID ∧
    recordingPos.readInt32LE (recordingPos.documentedLayoutKey 7 3 [65]) 12 = 1 ∧
    recordingPos.getSourceIdentity c7Counters 0 ≠ [65] ∧
    (recordingPos.getSourceIdentity c7Counters 0).length = 65 := by
  refine ⟨rfl, rfl, by decide, by decide, by decide, by decide, by decide, by decide,
    by decide⟩

/-- A recording descriptor for control session 7 answering correlation id 9. -/
def c1Descriptor : RecordingDescriptor :=
  { controlSessionId := 7, correlationId := 9, recordingId := 5, startTimestamp := 0,
    stopTimestamp := 0, startPosition := 0, stopPosition := 0, initialTermId := 0,
    segmentFileLength := 0, termBufferLength := 0, mtuLength := 0, sessionId := 0,
    streamId := 0, strippedChannel := "", originalChannel := "", sourceIdentity := "" }

/-- An unused control-response body for fragments of other templates. -/
def emptyResponseBody : ControlResponseBody :=
  { controlSessionId := 0, correlationId := 0, relevantId := 0, code := .ok,
    errorMessage := "" }

/-- A `RecordingDescriptor` fragment carrying `c1Descriptor`. -/
def c1Fragment : Fragment :=
  { schemaId := SCHEMA_ID, templateId := RECORDING_DESCRIPTOR_TEMPLATE_ID,
    response := emptyResponseBody, descriptor := c1Descriptor }

/-- The same descriptor answering correlation id 10. -/
def c1MatchingDescriptor : RecordingDescriptor :=
  { c1Descriptor with correlationId := 10 }

/-- A `RecordingDescriptor` fragment carrying `c1MatchingDescriptor`. -/
def c1MatchingFragment : Fragment :=
  { c1Fragment with descriptor := c1MatchingDescriptor }

/-- C1: evaluation of the descriptor query loop at the failing input. A query
on control session 7 awaiting correlation id 10 with record count 1 receives
a single descriptor answering the unrelated correlation id 9: no consumer
callback is invoked, yet the remaining count is decremented (the decrement in
`RecordingDescriptorPoller::onFragment` sits outside the session/correlation
match), dispatch completes, and the call returns 1 instead of the 0
descriptors actually delivered. With a matching descriptor the same query
returns 1 with exactly that descriptor delivered. -/
theorem recordingDescriptorPoller_counts_nonmatching_descriptor :
    AeronArchive.pollForDescriptors 7 10 1 [[c1Fragment]] = .ok (some (1, [])) ∧
    AeronArchive.pollForDescriptors 7 10 1 [[c1MatchingFragment]] =
      .ok (some (1, [c1MatchingDescriptor])) := by
  refine ⟨rfl, rfl⟩

/-- C3 counterexample: with the default three retry attempts available, the
plain offer path raises the fatal "no longer available" archive error on the
very first `NOT_CONNECTED` result instead of retrying until the attempts are
exhausted. -/
theorem plainOffer_not_connected_raises_immediately :
    plainOffer (fun _ => NOT_CONNECTED) 0 DEFAULT_RETRY_ATTEMPTS =
      .errNotConnected 1 ∧ (1 : Nat) < DEFAULT_RETRY_ATTEMPTS := by
  refine ⟨rfl, by decide⟩

/-- Retrying lemma for the plain offer path: when every available attempt is
rejected with a retriable code (`BACK_PRESSURED` or `ADMIN_ACTION`), the loop
makes exactly `m` attempts starting from attempt index `k` and returns
false. -/
theorem plainOffer_rejected_of_retriable (results : Nat → Int) :
    ∀ m k : Nat, 1 ≤ m →
      (∀ j : Nat, j < m → results (k + j) = BACK_PRESSURED ∨ results (k + j) = ADMIN_ACTION) →
      plainOffer results k m = .rejected (k + m) := by
  intro m
  induction m with
  | zero => intro k h; omega
  | succ m ih =>
    intro k _ h2
    have h0 := h2 0 (Nat.succ_pos m)
    rw [Nat.add_zero] at h0
    have hr : results k = -2 ∨ results k = -3 := h0
    by_cases hm : m = 0
    · subst hm
      rcases hr with hr | hr <;>
        simp [plainOffer, hr, BACK_PRESSURED, ADMIN_ACTION, PUBLICATION_CLOSED,
          MAX_POSITION_EXCEEDED, NOT_CONNECTED]
    · have hrec := ih (k + 1) (Nat.one_le_iff_ne_zero.mpr hm)
        (fun j hj => by
          have := h2 (j + 1) (by omega)
          rw [show k + (j + 1) = k + 1 + j by omega] at this
          exact this)
      rcases hr with hr | hr <;>
        · simp only [plainOffer, hr, BACK_PRESSURED, ADMIN_ACTION, PUBLICATION_CLOSED,
            MAX_POSITION_EXCEEDED, NOT_CONNECTED]
          norm_num [hm]
          rw [hrec]
          congr 1
          omega

/-- C3 (amended): the plain offer path accepts on a positive result; raises a
fatal archive error immediately on the first `PUBLICATION_CLOSED`,
`MAX_POSITION_EXCEEDED` or `NOT_CONNECTED` result; and retries only on
back-pressure and admin action, making at most `retryAttempts` (default 3)
offer attempts in total before returning false. -/
theorem plainOffer_retry_policy (results : Nat → Int) (n : Nat) (hn : 1 ≤ n) :
    (0 < results 0 → plainOffer results 0 n = .accepted 1) ∧
    (results 0 = PUBLICATION_CLOSED → plainOffer results 0 n = .errPublicationClosed 1) ∧
    (results 0 = MAX_POSITION_EXCEEDED →
      plainOffer results 0 n = .errMaxPositionExceeded 1) ∧
    (results 0 = NOT_CONNECTED → plainOffer results 0 n = .errNotConnected 1) ∧
    ((∀ j : Nat, j < n →
        results j = BACK_PRESSURED ∨ results j = ADMIN_ACTION) →
      plainOffer results 0 n = .rejected n) ∧
    DEFAULT_RETRY_ATTEMPTS = 3 := by
  obtain ⟨m, rfl⟩ : ∃ m, n = m + 1 := ⟨n - 1, by omega⟩
  refine ⟨?_, ?_, ?_, ?_, ?_, rfl⟩
  · intro h
    simp [plainOffer, h]
  · intro h
    simp [plainOffer, h, PUBLICATION_CLOSED]
  · intro h
    simp [plainOffer, h, PUBLICATION_CLOSED, MAX_POSITION_EXCEEDED]
  · intro h
    simp [plainOffer, h, PUBLICATION_CLOSED, MAX_POSITION_EXCEEDED, NOT_CONNECTED]
  · intro h
    have := plainOffer_rejected_of_retriable results (m + 1) 0 (by omega)
      (fun j hj => by simpa using h j hj)
    simpa using this

/-- C3 witness: the amended retry policy evaluated with three attempts on an
always-back-pressured publication: three attempts are made and the offer
returns false. -/
theorem plainOffer_retry_policy_witness :
    plainOffer (fun _ => (-2 : Int)) 0 3 = .rejected 3 :=
  (plainOffer_retry_policy (fun _ => (-2 : Int)) 3 (by decide)).2.2.2.2.1
    (fun j _ => Or.inl rfl)

/-- C4: dispatch of `AeronArchive::pollForResponse` on a completed control
response whose control session id matches, while awaiting `correlationId`:
a matching correlation id returns `relevantId` on code `OK`, raises an
archive error carrying the server error code (`relevantId`) and error
message on code `ERROR`, and raises "unexpected response code" on any other
code; an `ERROR` on an unrelated correlation id is delivered to the
installed error handler and polling continues; any other unrelated response
is skipped and polling continues. -/
theorem pollForResponse_dispatch
    (controlSessionId correlationId : Int) (hasErrorHandler : Bool)
    (r : PolledResponse) (rest : List PolledResponse)
    (hs : r.controlSessionId = controlSessionId)
    (hc : r.isControlResponse = true) :
    (r.correlationId = correlationId → r.code = .ok →
      AeronArchive.pollForResponse controlSessionId correlationId hasErrorHandler
        (r :: rest) = ([], .ok r.relevantId)) ∧
    (r.correlationId = correlationId → r.code = .error →
      AeronArchive.pollForResponse controlSessionId correlationId hasErrorHandler
        (r :: rest) = ([], .archiveError r.relevantId r.errorMessage)) ∧
    (r.correlationId = correlationId → r.code ≠ .ok → r.code ≠ .error →
      AeronArchive.pollForResponse controlSessionId correlationId hasErrorHandler
        (r :: rest) = ([], .unexpectedCode r.code)) ∧
    (r.correlationId ≠ correlationId → r.code = .error →
      AeronArchive.pollForResponse controlSessionId correlationId true (r :: rest) =
        ((r.relevantId, r.errorMessage) ::
            (AeronArchive.pollForResponse controlSessionId correlationId true rest).1,
          (AeronArchive.pollForResponse controlSessionId correlationId true rest).2)) ∧
    (r.correlationId ≠ correlationId → r.code ≠ .error →
      AeronArchive.pollForResponse controlSessionId correlationId hasErrorHandler
        (r :: rest) =
        AeronArchive.pollForResponse controlSessionId correlationId hasErrorHandler
          rest) := by
  refine ⟨?_, ?_, ?_, ?_, ?_⟩
  · intro hcid hcode
    simp [AeronArchive.pollForResponse, hs, hc, hcid, hcode]
  · intro hcid hcode
    simp [AeronArchive.pollForResponse, hs, hc, hcid, hcode]
  · intro hcid hok herr
    simp [AeronArchive.pollForResponse, hs, hc, hcid, hok, herr]
  · intro hcid hcode
    simp [AeronArchive.pollForResponse, hs, hc, hcid, hcode]
  · intro hcid hcode
    simp [AeronArchive.pollForResponse, hs, hc, hcid, hcode]

/-- An `OK` control response for session 7 answering correlation id 42 with
relevant id 99. -/
def c4OkResponse : PolledResponse :=
  { controlSessionId := 7, correlationId := 42, relevantId := 99, code := .ok,
    errorMessage := "", isControlResponse := true }

/-- An `ERROR` control response for session 7 answering correlation id 9. -/
def c4ErrResponse : PolledResponse :=
  { controlSessionId := 7, correlationId := 9, relevantId := 5,
    errorMessage := "boom", code := .error, isControlResponse := true }

/-- C4 witness: awaiting correlation id 42 on session 7, an `ERROR` for the
unrelated correlation id 9 is delivered to the installed error handler and
polling continues to return relevant id 99 from the following `OK`
response. -/
theorem pollForResponse_dispatch_witness :
    AeronArchive.pollForResponse 7 42 true [c4ErrResponse, c4OkResponse] =
      ([(5, "boom")], .ok 99) := by
  have hskip := (pollForResponse_dispatch 7 42 true c4ErrResponse [c4OkResponse]
    rfl rfl).2.2.2.1 (by decide) rfl
  have hok := (pollForResponse_dispatch 7 42 true c4OkResponse [] rfl rfl).1 rfl rfl
  rw [hskip, hok]
  rfl

/-- C10: `ControlResponsePoller::poll()` first resets `controlSessionId`,
`correlationId`, `relevantId` and `templateId` to -1, clears the error
message and clears `isPollComplete`; within one poll, a fragment arriving
after the poll is complete is aborted with no field modified, the fragment
decoding a `ControlResponse` populates the fields, sets `isPollComplete` and
breaks, and the controlled poll consumes exactly that one fragment and
stops there. -/
theorem controlResponsePoller_single_decode
    (st : CRPState) (f : Fragment) (frags : List Fragment) (limit : Nat)
    (hdone : st.pollComplete = false) (hschema : f.schemaId = SCHEMA_ID)
    (htid : f.templateId = CONTROL_RESPONSE_TEMPLATE_ID) :
    (ControlResponsePoller.resetForPoll st).controlSessionId = -1 ∧
    (ControlResponsePoller.resetForPoll st).correlationId = -1 ∧
    (ControlResponsePoller.resetForPoll st).relevantId = -1 ∧
    (ControlResponsePoller.resetForPoll st).templateId = -1 ∧
    (ControlResponsePoller.resetForPoll st).errorMessage = "" ∧
    (ControlResponsePoller.resetForPoll st).pollComplete = false ∧
    (∀ st1 : CRPState, ∀ g : Fragment, st1.pollComplete = true →
      ControlResponsePoller.onFragment st1 g = .ok (.abort, st1)) ∧
    ControlResponsePoller.onFragment st f =
      .ok (.brk, ControlResponsePoller.decodedState st f) ∧
    controlledPollRun ControlResponsePoller.onFragment st (f :: frags) (limit + 1) =
      .ok (ControlResponsePoller.decodedState st f, 1) := by
  refine ⟨rfl, rfl, rfl, rfl, rfl, rfl, ?_, ?_, ?_⟩
  · intro st1 g h1
    simp [ControlResponsePoller.onFragment, h1]
  · simp [ControlResponsePoller.onFragment, hdone, hschema, htid,
      ControlResponsePoller.decodedState]
  · have hbrk : ControlResponsePoller.onFragment st f =
        .ok (.brk, ControlResponsePoller.decodedState st f) := by
      simp [ControlResponsePoller.onFragment, hdone, hschema, htid,
        ControlResponsePoller.decodedState]
    simp [controlledPollRun, hbrk]

/-- A `ControlResponse` fragment carrying `c4OkResponse` converted to a body. -/
def c10Fragment : Fragment :=
  { schemaId := SCHEMA_ID, templateId := CONTROL_RESPONSE_TEMPLATE_ID,
    response := { controlSessionId := 7, correlationId := 42, relevantId := 99,
                  code := .ok, errorMessage := "" },
    descriptor := c1Descriptor }

/-- A freshly reset poller state for the C10 witness. -/
def c10State : CRPState :=
  { controlSessionId := -1, correlationId := -1, relevantId := -1, templateId := -1,
    code := .ok, errorMessage := "", pollComplete := false }

/-- C10 witness: the single-decode property evaluated on a concrete poller
state and a concrete `ControlResponse` fragment followed by another
fragment. -/
theorem controlResponsePoller_single_decode_witness :
    controlledPollRun ControlResponsePoller.onFragment c10State
        [c10Fragment, c10Fragment] 10 =
      .ok (ControlResponsePoller.decodedState c10State c10Fragment, 1) :=
  (controlResponsePoller_single_decode c10State c10Fragment [c10Fragment] 9
    rfl rfl rfl).2.2.2.2.2.2.2.2

/-- A `ReplayMerge` state awaiting the response to correlation id 5. -/
def c5State : RMState :=
  { phase := RMPhase.awaitInitialRecordingPosition, activeCorrelationId := 5,
    nextTargetPosition := 0, initialMaxPosition := 0, replaySessionId := -1,
    replayActive := false, liveAdded := false, imagePosition := none }

/-- An environment in which the pending response arrives carrying
`NULL_POSITION` and the follow-up offer succeeds with correlation id 6. -/
def c5Env : RMEnv :=
  { newCorrelationId := 6, sendOk := true, poll := RMPollOutcome.matched (-1),
    shouldAddLive := false, shouldStopReplay := false }

/-- C5 counterexample: when the initial `getRecordingPosition` reply is
`NULL_POSITION`, a single `awaitInitialRecordingPosition` call both observes
the poller once and offers the fallback `getStopPosition` request, and that
request is sent while `activeCorrelationId` is still 5, not `NULL_VALUE` —
contradicting both the send-only-when-idle clause and the at-most-one-action
clause of the claim. -/
theorem replayMerge_fallback_send_breaks_single_action :
    c5State.activeCorrelationId ≠ NULL_VALUE ∧
    (ReplayMerge.awaitInitialRecordingPositionStep c5State c5Env).2.polls = 1 ∧
    (ReplayMerge.awaitInitialRecordingPositionStep c5State c5Env).2.sendAttempts = 1 ∧
    (ReplayMerge.awaitInitialRecordingPositionStep c5State c5Env).1.activeCorrelationId
      = 6 := by
  refine ⟨by decide, by decide, by decide, by decide⟩

/-- C5 (amended): every call of the four `ReplayMerge` step functions makes at
most one poller observation and at most one proxy offer; an offer happens
only from the idle state (`activeCorrelationId == NULL_VALUE`) or directly
after the pending response was consumed in the same call; a successful offer
records the freshly allocated correlation id; consuming the matching
response without a follow-up offer resets `activeCorrelationId` to
`NULL_VALUE`; and the single-flight invariant — at most one request in
flight, a pending request implying `activeCorrelationId ≠ NULL_VALUE` — is
preserved whenever a response can only be consumed while a request is in
flight and allocated correlation ids are never the null value. -/
theorem replayMerge_step_single_flight (st : RMState) (env : RMEnv) :
    stepContract st env (ReplayMerge.awaitInitialRecordingPositionStep st env) ∧
    stepContract st env (ReplayMerge.awaitReplayStep st env) ∧
    stepContract st env (ReplayMerge.awaitUpdatedRecordingPositionStep st env) ∧
    stepContract st env (ReplayMerge.awaitStopReplayStep st env) :=
  ⟨awaitInitial_contract st env, awaitReplay_contract st env,
   awaitUpdated_contract st env, awaitStop_contract st env⟩

/-- C5 witness: the step contract evaluated for a concrete awaiting state and
the fallback environment; in particular the single-flight count after the
call is again one, carried by the new correlation id. -/
theorem replayMerge_step_single_flight_witness :
    stepContract c5State c5Env
      (ReplayMerge.awaitInitialRecordingPositionStep c5State c5Env) ∧
    flightInv (ReplayMerge.awaitInitialRecordingPositionStep c5State c5Env).1
      (postFlight 1 (ReplayMerge.awaitInitialRecordingPositionStep c5State c5Env).2) := by
  have h := replayMerge_step_single_flight c5State c5Env
  exact ⟨h.1, (h.1.2.2.2.2.2 1 (by decide) ⟨le_refl 1, fun _ => by decide⟩ fun _ => rfl)⟩

end Aeron
